import Mathlib

/-!
Verification of the resumable ordered-datastore download engine.

This development shallowly embeds the core of `src/download.ts` (the
authoritative implementation) together with the `writeTaskQueue` variant found
elsewhere in the repository.  JavaScript machine behaviour that the code relies
on (`String.prototype.indexOf`, `String.prototype.substring`, value
truthiness, template-literal stringification) is embedded faithfully, including
the corner cases (`indexOf` returning `-1`, `substring` clamping negative
indices, `0` and `""` being falsy).
-/

namespace OrderedBackup

/-- JavaScript values, as far as the downloader manipulates them: the JSON
pages returned by the API and the fields read off them.  Numbers are modelled
as integers, which covers every value the claims exercise. -/
inductive JSVal where
  | vundefined
  | vnull
  | vbool (b : Bool)
  | vnum (n : Int)
  | vstr (s : String)
  | vobj (fields : List (String × JSVal))

/-- JavaScript truthiness, as used by `if (id && value)`,
`if (position.nextPageToken)`, `if (!entries)` and friends:
`undefined`, `null`, `false`, `0` and `""` are falsy, objects are truthy. -/
def truthy : JSVal → Bool
  | .vundefined => false
  | .vnull => false
  | .vbool b => b
  | .vnum n => n != 0
  | .vstr s => s != ""
  | .vobj _ => true

/-- Template-literal stringification as applied to the values the code
interpolates (ids, values, page tokens). -/
def jsToString : JSVal → String
  | .vundefined => "undefined"
  | .vnull => "null"
  | .vbool b => if b then "true" else "false"
  | .vnum n => toString n
  | .vstr s => s
  | .vobj _ => "[object Object]"

/-- Property access `o[k]`: missing keys (and access on non-objects) read as
`undefined`. -/
def getField (v : JSVal) (k : String) : JSVal :=
  match v with
  | .vobj fields =>
    match fields.find? (fun p => p.1 == k) with
    | some p => p.2
    | none => .vundefined
  | _ => .vundefined

/-- `Object.values(entries)` on the entries object of a page. -/
def objValues : JSVal → List JSVal
  | .vobj fields => fields.map (fun p => p.2)
  | _ => []

/-- `typeof v == "object"` (note `typeof null` is `"object"` in JavaScript). -/
def typeofObject : JSVal → Bool
  | .vobj _ => true
  | .vnull => true
  | _ => false

/-- `String.prototype.indexOf` for a single character: the index of the first
occurrence, or `-1` when the character does not occur. -/
def jsIndexOf (s : String) (c : Char) : Int :=
  match s.toList.findIdx? (fun x => x == c) with
  | some n => (n : Int)
  | none => -1

/-- `String.prototype.substring`: negative arguments clamp to `0`, arguments
beyond the length clamp to the length, and the bounds are swapped when given
out of order. -/
def jsSubstring (s : String) (start stop : Int) : String :=
  let n : Int := (s.length : Int)
  let a := min (max start 0) n
  let b := min (max stop 0) n
  let lo := min a b
  let hi := max a b
  String.mk ((s.toList.drop lo.toNat).take (hi - lo).toNat)

/-- The pagination cursor of `download.ts`:
`{ nextPageToken: string | null, page: number }`. -/
structure Position where
  nextPageToken : Option String
  page : Nat
deriving DecidableEq, Repr

/-- Token extraction performed on each non-empty resume-log line in
`getLastPosition`: the substring before the first space, with the literal
string `"null"` decoded back to `null`. -/
def parseLineToken (line : String) : Option String :=
  let firstSpace := jsIndexOf line ' '
  let nextPageToken := jsSubstring line 0 firstSpace
  if nextPageToken == "null" then none else some nextPageToken

/-- The line scan of `getLastPosition`: starting from the fallback position and
the counter `i = 2`, each non-empty line overwrites the position with its
parsed token and the current counter, and bumps the counter. -/
def scanLines : List String → Position → Nat → Position
  | [], result, _ => result
  | line :: rest, result, i =>
    if line.length = 0 then scanLines rest result i
    else scanLines rest { nextPageToken := parseLineToken line, page := i } (i + 1)

/-- `getLastPosition` from `download.ts`, over the resume-log contents:
`none` models an absent log file, `some lines` its list of lines. -/
def getLastPosition (log : Option (List String)) : Position :=
  match log with
  | none => { nextPageToken := none, page := 1 }
  | some lines => scanLines lines { nextPageToken := none, page := 1 } 2

/-- The non-empty lines of a resume log, in order. -/
def nonEmptyLines (lines : List String) : List String :=
  lines.filter (fun l => l.length != 0)

/-- A five-page resume log whose last non-empty line carries the token
`abc`. -/
def c2ExampleLog : List String :=
  ["t1 <- Next page token | Got page 1 (null)",
   "t2 <- Next page token | Got page 2 (t1)",
   "t3 <- Next page token | Got page 3 (t2)",
   "t4 <- Next page token | Got page 4 (t3)",
   "abc <- Next page token | Got page 5 (xyz)"]

/-- Query-parameter construction at the top of `downloadPage`:
`max_page_size=100`, `order_by=desc`, and `page_token` appended only when
`if (position.nextPageToken)` holds — a truthiness test, so both `null` and
the empty string skip the parameter. -/
def buildQueryParams (position : Position) : List (String × String) :=
  let params := [("max_page_size", "100"), ("order_by", "desc")]
  match position.nextPageToken with
  | none => params
  | some t => if t == "" then params else params ++ [("page_token", t)]

/-- Abstract HTTP response: the status and the outcome of `response.text()`
(`none` models a rejected read). -/
structure HttpResponse where
  status : Int
  textResult : Option String

/-- The failure kinds `downloadPage` can reject with, in source order. -/
inductive DownloadError where
  | fetchFailed
  | textFailed
  | httpStatus
  | rateLimited
  | parseFailed
  | schemaInvalid
deriving DecidableEq, Repr

/-- `downloadPage` from `download.ts` over an abstract transport: `fetched` is
the outcome of `fetch` (`none` models a rejected promise), and `parsed` is the
outcome `JSON.parse` gives on the response text (`none` models a parse throw).
The status guard is transcribed exactly as written in the source:
`status != 429 && status < 200 && status >= 300`. -/
def downloadPage (fetched : Option HttpResponse) (parsed : Option JSVal) :
    Except DownloadError JSVal :=
  match fetched with
  | none => .error .fetchFailed
  | some response =>
    match response.textResult with
    | none => .error .textFailed
    | some _text =>
      if response.status ≠ 429 ∧ response.status < 200 ∧ response.status ≥ 300 then
        .error .httpStatus
      else if response.status = 429 then
        .error .rateLimited
      else
        match parsed with
        | none => .error .parseFailed
        | some json =>
          if !truthy (getField json "entries") then .error .schemaInvalid
          else .ok json

/-- One iteration of the `taskQueue` worker loop in `download.ts`: the row
written for the entry, or `none` when `if (id && value)` rejects it.  The test
is truthiness, not a numeric check: value `0` and value `""` are rejected
while any truthy non-number (for example a non-empty string) is accepted. -/
def entryRow (entry : JSVal) : Option String :=
  let id := getField entry "id"
  let value := getField entry "value"
  if truthy id && truthy value then
    some (jsToString id ++ "," ++ jsToString value ++ "\n")
  else none

/-- The rows the `taskQueue` worker of `download.ts` appends to the Record
Store for one dequeued page.  (For `json = null`, `typeof null` is
`"object"` so the guard passes and the real worker throws on
`json["entries"]`, which the queue's error handler swallows; observably no row
is appended, which is what reading the field as `undefined` models.) -/
def taskWorkerRows (json : JSVal) : List String :=
  if !typeofObject json then []
  else
    let entries := getField json "entries"
    if !truthy entries then []
    else (objValues entries).filterMap entryRow

/-- `typeof value === "number"`. -/
def isNumber : JSVal → Bool
  | .vnum _ => true
  | _ => false

/-- One iteration of the `writeTaskQueue` worker in the repository's
combined-queue variant: `if (id && typeof(value) === "number")`. -/
def writeTaskEntryRow (entry : JSVal) : Option String :=
  let id := getField entry "id"
  let value := getField entry "value"
  if truthy id && isNumber value then
    some (jsToString id ++ "," ++ jsToString value ++ "\n")
  else none

/-- The Record Store rows of the combined `writeTaskQueue` worker for one
dequeued task (its entry-writing loop; the worker then appends the log
line). -/
def writeTaskWorkerRows (json : JSVal) : List String :=
  if !typeofObject json then []
  else
    let entries := getField json "entries"
    if !truthy entries then []
    else (objValues entries).filterMap writeTaskEntryRow

/-- The example page of the specification:
`{entries:{a:{id:"1",value:10}, b:{id:"2",value:"x"}}}`. -/
def examplePage : JSVal :=
  .vobj [("entries", .vobj
    [("a", .vobj [("id", .vstr "1"), ("value", .vnum 10)]),
     ("b", .vobj [("id", .vstr "2"), ("value", .vstr "x")])])]

/-- A page with a single entry whose id is present and whose value is the
number `0`. -/
def zeroValuePage : JSVal :=
  .vobj [("entries", .vobj [("a", .vobj [("id", .vstr "1"), ("value", .vnum 0)])])]

/-- A JSON body with an entries object, as a 500 response might carry. -/
def emptyEntriesPage : JSVal := .vobj [("entries", .vobj [])]

/-- A JSON body without the entries field. -/
def noEntriesPage : JSVal := .vobj [("message", .vstr "error")]

/-- A page with one valid entry and a next-page token. -/
def pageWithNext : JSVal :=
  .vobj [("entries", .vobj [("a", .vobj [("id", .vstr "1"), ("value", .vnum 10)])]),
         ("nextPageToken", .vstr "tok2")]

/-- `STARTING_BACKOFF` of `download.ts` (seconds). -/
def STARTING_BACKOFF : Nat := 5

/-- `INCREMENT_BACKOFF` of `download.ts` (seconds). -/
def INCREMENT_BACKOFF : Nat := 5

/-- The resume-log line pushed per successful page, a template literal over
the raw `json["nextPageToken"]` value and the current position:
`` `${nextToken} <- Next page token | Got page ${position.page} (${position.nextPageToken})` ``. -/
def logLine (nextToken : JSVal) (position : Position) : String :=
  jsToString nextToken ++ " <- Next page token | Got page " ++ toString position.page
    ++ " (" ++ (match position.nextPageToken with | none => "null" | some t => t) ++ ")"

/-- The mutable state of the `run` main loop in `download.ts`: the cursor, the
backoff value, the contents pushed (in order) to `taskQueue` and `logQueue`,
the sleeps performed so far, and whether the loop has exited through its only
`break` (no next token). -/
structure RunState where
  position : Position
  backoff : Nat
  taskQueue : List JSVal
  logQueue : List String
  sleeps : List Nat
  done : Bool

/-- The state at the top of `run`'s loop: `backoff = STARTING_BACKOFF`, both
queues empty, no sleeps, loop live. -/
def initRunState (start : Position) : RunState :=
  { position := start, backoff := STARTING_BACKOFF, taskQueue := [],
    logQueue := [], sleeps := [], done := false }

/-- The failure branch of the loop body
(`if (!maybeJson || !maybeJson["entries"])`): sleep the current backoff, add
the increment, `continue` — position and queues untouched. -/
def stepFailure (st : RunState) : RunState :=
  { st with
    sleeps := st.sleeps ++ [st.backoff],
    backoff := st.backoff + INCREMENT_BACKOFF }

/-- The success branch of the loop body: push the page to `taskQueue` and its
log line to `logQueue`; then either `break` on a falsy next token, or reset
the backoff and advance the position.  (The API's `nextPageToken` is a string,
on which the stringification used for the position update is the
identity.) -/
def stepSuccess (st : RunState) (json : JSVal) : RunState :=
  let nextToken := getField json "nextPageToken"
  let pushed := { st with
    taskQueue := st.taskQueue ++ [json],
    logQueue := st.logQueue ++ [logLine nextToken st.position] }
  if !truthy nextToken then { pushed with done := true }
  else { pushed with
    backoff := STARTING_BACKOFF,
    position := { nextPageToken := some (jsToString nextToken),
                  page := st.position.page + 1 } }

/-- One iteration of the `run` loop of `download.ts`, given the settled
outcome of `downloadPage` (a rejection is caught by
`.catch((reason) => console.error(reason))`, leaving `maybeJson` undefined,
hence falsy). -/
def runIteration (st : RunState) (result : Except DownloadError JSVal) : RunState :=
  match result with
  | .error _ => stepFailure st
  | .ok json =>
    if !truthy (getField json "entries") then stepFailure st
    else stepSuccess st json

/-- The loop state of `download.ts` paired with the cancellation flag a
shutdown coordinator would flip on SIGINT/SIGTERM/SIGQUIT.  `download.ts`
itself declares no such flag — its signal handler only runs `teardown` —
which is exactly what the claims about cancellation are checked against. -/
structure SessionState where
  core : RunState
  cancelled : Bool

/-- Whether the next loop iteration of `download.ts` begins with a
`downloadPage` call.  Translated from the loop head `while (true)`: the guard
consults no cancellation state (none exists in `download.ts`), so a fetch
starts whenever the loop has not exited through its `break`. -/
def startsFetch (s : SessionState) : Bool := !s.core.done

/-- Modelled from the spec: the semantics of the async library's queue
`drain`/idle notification are not part of the repository source; section 4.4
of the specification states that queue-idle notifications can fire with
exactly one task still in-flight.  `DrainFires queued inFlight` holds in the
states (queued tasks, in-flight tasks) in which `await queue.drain()` may
return. -/
inductive DrainFires : Nat → Nat → Prop where
  | idle : DrainFires 0 0
  | oneInFlight : DrainFires 0 1

/-- The `teardown` of `download.ts` closes the write streams immediately
after awaiting `taskQueue.drain()` and `logQueue.drain()` (no re-check of
remaining payload, unlike the `writeTaskQueue` variant): the streams may be
closed in any queue state in which both drains fire. -/
def teardownTsCloses (taskQueued taskInFlight logQueued logInFlight : Nat) : Prop :=
  DrainFires taskQueued taskInFlight ∧ DrainFires logQueued logInFlight

/-- The observable state of the Write Pipeline of `download.ts`: the two
independent single-concurrency queues (`taskQueue` holding pages whose entry
rows are still to be written, `logQueue` holding resume-log lines), the rows
remaining for the task currently in flight, and the two append-only files. -/
structure TwoQueueState where
  taskQueue : List JSVal
  taskInFlight : Option (List String)
  logQueue : List String
  dataFile : List String
  logFile : List String

/-- Interleaved execution of the two queue workers of `download.ts`.  Each
queue has concurrency 1 (at most one task of its own in flight), but nothing
orders the two workers relative to each other: `writeLog` is enabled whenever
a log line is queued, regardless of how many entry rows of the corresponding
page are still unwritten. -/
inductive TwoQueueStep : TwoQueueState → TwoQueueState → Prop where
  | startTask (s : TwoQueueState) (j : JSVal) (rest : List JSVal) :
      s.taskInFlight = none → s.taskQueue = j :: rest →
      TwoQueueStep s { s with taskQueue := rest,
                              taskInFlight := some (taskWorkerRows j) }
  | writeRow (s : TwoQueueState) (r : String) (rs : List String) :
      s.taskInFlight = some (r :: rs) →
      TwoQueueStep s { s with dataFile := s.dataFile ++ [r],
                              taskInFlight := some rs }
  | finishTask (s : TwoQueueState) :
      s.taskInFlight = some [] →
      TwoQueueStep s { s with taskInFlight := none }
  | writeLog (s : TwoQueueState) (m : String) (rest : List String) :
      s.logQueue = m :: rest →
      TwoQueueStep s { s with logQueue := rest,
                              logFile := s.logFile ++ [m ++ "\n"] }

/-- The Write Pipeline state right after the orchestrator handled one
successfully fetched page (the specification's example page): the page sits in
`taskQueue`, its log line sits in `logQueue`, nothing is written yet. -/
def c1Init : TwoQueueState :=
  let st := stepSuccess (initRunState { nextPageToken := none, page := 1 }) examplePage
  { taskQueue := st.taskQueue, taskInFlight := none, logQueue := st.logQueue,
    dataFile := [], logFile := [] }

/-! ## Helper lemmas -/

theorem cons_getLast?_isSome {α : Type} (x : α) (xs : List α) :
    ∃ y, (x :: xs).getLast? = some y := by
  induction xs generalizing x with
  | nil => exact ⟨x, rfl⟩
  | cons a as ih => rw [List.getLast?_cons_cons]; exact ih a

theorem scanLines_page (lines : List String) (result : Position) (i : Nat) :
    (scanLines lines result i).page =
      if (nonEmptyLines lines).length = 0 then result.page
      else i + (nonEmptyLines lines).length - 1 := by
  induction lines generalizing result i with
  | nil => simp [scanLines, nonEmptyLines]
  | cons line rest ih =>
    by_cases h : line.length = 0
    · simp [scanLines, nonEmptyLines, h, ih, List.filter]
    · simp only [scanLines, nonEmptyLines, h, if_false, ih, List.filter,
        List.length_cons]
      have h' : (line.length != 0) = true := by simpa using h
      simp only [h', nonEmptyLines, List.length_cons]
      split <;> split <;> omega

theorem scanLines_token (lines : List String) (result : Position) (i : Nat) :
    (scanLines lines result i).nextPageToken =
      match (nonEmptyLines lines).getLast? with
      | none => result.nextPageToken
      | some l => parseLineToken l := by
  induction lines generalizing result i with
  | nil => simp [scanLines, nonEmptyLines]
  | cons line rest ih =>
    by_cases h : line.length = 0
    · simp [scanLines, nonEmptyLines, h, ih, List.filter]
    · have h' : (line.length != 0) = true := by simpa using h
      simp only [scanLines, h, if_false, ih, nonEmptyLines, List.filter, h']
      cases hr : rest.filter (fun l => l.length != 0) with
      | nil => simp
      | cons x xs =>
        obtain ⟨y, hy⟩ := cons_getLast?_isSome x xs
        simp [hy]

theorem jsSubstring_zero_neg (s : String) : jsSubstring s 0 (-1) = "" := by
  have h0 : (0 : Int) ≤ (s.length : Int) := Int.ofNat_nonneg _
  simp [jsSubstring, min_eq_left h0]

/-! ## Claim theorems -/

/-- Claim C1 (code evaluated at the failing schedule): in `download.ts` the
entry rows and the resume-log line of a page go to two INDEPENDENT
single-concurrency queues, so there is an execution of the Write Pipeline in
which the log line of a page is appended to the Resume Log while every entry
row of that page is still pending: from the state right after the
orchestrator pushed the example page (whose worker rows are `1,10` and `2,x`)
and its log line, a single step of the log worker writes the log line with
the Record Store still empty. -/
theorem twoQueue_log_before_entries :
    taskWorkerRows examplePage = ["1,10\n", "2,x\n"]
    ∧ c1Init.dataFile = []
    ∧ TwoQueueStep c1Init
        { taskQueue := [examplePage], taskInFlight := none, logQueue := [],
          dataFile := [],
          logFile := ["undefined <- Next page token | Got page 1 (null)\n"] } := by
  refine ⟨rfl, rfl, ?_⟩
  exact TwoQueueStep.writeLog c1Init
    "undefined <- Next page token | Got page 1 (null)" [] rfl

/-- Claim C2: position recovery returns `{nextPageToken: none, page: 1}` for an
absent log; for a present log the page is one more than the number of non-empty
lines and the token is parsed from the last non-empty line (substring before
the first space, `"null"` decoding to `none`); on the five-line example log
ending in `abc <- Next page token | Got page 5 (xyz)` it yields token `abc`
and page `6`. -/
theorem getLastPosition_correct :
    getLastPosition none = { nextPageToken := none, page := 1 }
    ∧ (∀ lines, (getLastPosition (some lines)).page =
        1 + (nonEmptyLines lines).length)
    ∧ (∀ lines, (getLastPosition (some lines)).nextPageToken =
        match (nonEmptyLines lines).getLast? with
        | none => none
        | some l => parseLineToken l)
    ∧ getLastPosition (some c2ExampleLog) = { nextPageToken := some "abc", page := 6 } := by
  refine ⟨rfl, ?_, ?_, by decide⟩
  · intro lines
    simp only [getLastPosition, scanLines_page]
    split <;> omega
  · intro lines
    simp [getLastPosition, scanLines_token]

/-- Claim C3 (code evaluated at the failing input): on the page
`{entries:{a:{id:"1",value:10}, b:{id:"2",value:"x"}}}` the `taskQueue` worker
of `download.ts` appends the rows `1,10` AND `2,x`, because its guard
`id && value` tests truthiness rather than numericity; only the repository's
`writeTaskQueue` variant, whose guard checks `typeof(value) === "number"`,
appends exactly the row `1,10` the claim demands. -/
theorem taskWorker_truthiness_not_numeric :
    taskWorkerRows examplePage = ["1,10\n", "2,x\n"]
    ∧ writeTaskWorkerRows examplePage = ["1,10\n"] := ⟨rfl, rfl⟩

/-- Claim C4 (code evaluated at the failing input): `download.ts` has no
running flag — its main loop is `while (true)` — so a fetch iteration starts
even in a cancelled session whenever the loop has not already finished
normally; moreover its `teardown` may close the write streams in a state with
one write task still in flight, since it closes immediately after the drain
notifications, which can fire with exactly one task in flight. -/
theorem cancellation_not_observed :
    (∀ core : RunState, core.done = false →
      startsFetch { core := core, cancelled := true } = true)
    ∧ teardownTsCloses 0 1 0 0 := by
  constructor
  · intro core h
    simp [startsFetch, h]
  · exact ⟨DrainFires.oneInFlight, DrainFires.idle⟩

/-- Witness for C4: a fresh, not-yet-done loop state in a cancelled session
still starts a fetch. -/
theorem cancellation_not_observed_witness :
    startsFetch { core := initRunState { nextPageToken := none, page := 1 },
                  cancelled := true } = true
    ∧ teardownTsCloses 0 1 0 0 :=
  ⟨cancellation_not_observed.1 _ rfl, cancellation_not_observed.2⟩

/-- Claim C5 (code evaluated at the failing input): the status guard of
`downloadPage` is `status != 429 && status < 200 && status >= 300`, which no
integer satisfies, so a response with a non-2xx, non-429 status and a readable
body is never rejected with the HttpStatusError-style failure: a 500 response
whose body parses to a page with entries is returned as a page, and no input
whatsoever produces the `httpStatus` failure. -/
theorem status_guard_unreachable :
    downloadPage (some { status := 500, textResult := some "sometext" })
        (some emptyEntriesPage) = .ok emptyEntriesPage
    ∧ ∀ fetched parsed, downloadPage fetched parsed ≠ .error .httpStatus := by
  refine ⟨rfl, ?_⟩
  intro fetched parsed
  match fetched with
  | none => simp [downloadPage]
  | some response =>
    match h : response.textResult with
    | none => simp [downloadPage, h]
    | some text =>
      simp only [downloadPage, h]
      split
      · rename_i hcond
        omega
      · split
        · simp
        · match parsed with
          | none => simp
          | some json => cases hj : truthy (getField json "entries") <;> simp [hj]

/-- Witness for C5: the theorem applied at status 500 (page returned) and at a
404 response with an unparsable body (rejected, but not with httpStatus). -/
theorem status_guard_unreachable_witness :
    downloadPage (some { status := 500, textResult := some "sometext" })
        (some emptyEntriesPage) = .ok emptyEntriesPage
    ∧ downloadPage (some { status := 404, textResult := some "sometext" }) none ≠
        .error .httpStatus :=
  ⟨status_guard_unreachable.1, status_guard_unreachable.2 _ _⟩

/-- Claim C6 counterexample: the Position with the empty-string token — a set
token — yields exactly the two fixed parameters, identical to the first-page
request built from a `none` token: `page_token` is not included. -/
theorem pageToken_empty_dropped :
    buildQueryParams { nextPageToken := some "", page := 2 } =
      [("max_page_size", "100"), ("order_by", "desc")]
    ∧ buildQueryParams { nextPageToken := some "", page := 2 } =
      buildQueryParams { nextPageToken := none, page := 2 } := ⟨rfl, rfl⟩

/-- Claim C6 as amended: a `none` token omits `page_token`; a NONEMPTY token is
included verbatim as the third parameter; the empty-string token, being falsy
in JavaScript, also omits it; and every request carries `max_page_size=100`
and `order_by=desc`. -/
theorem buildQueryParams_spec :
    (∀ p : Position, p.nextPageToken = none →
      buildQueryParams p = [("max_page_size", "100"), ("order_by", "desc")])
    ∧ (∀ (p : Position) (t : String), p.nextPageToken = some t → t ≠ "" →
      buildQueryParams p =
        [("max_page_size", "100"), ("order_by", "desc"), ("page_token", t)])
    ∧ (∀ p : Position, ("max_page_size", "100") ∈ buildQueryParams p
        ∧ ("order_by", "desc") ∈ buildQueryParams p) := by
  refine ⟨?_, ?_, ?_⟩
  · intro p hp
    simp [buildQueryParams, hp]
  · intro p t hp ht
    simp [buildQueryParams, hp, ht]
  · intro p
    unfold buildQueryParams
    match p.nextPageToken with
    | none => simp
    | some t =>
      by_cases ht : t == ""
      · simp [ht]
      · simp [ht]

/-- Witness for the amended C6 at the tokens `none`, `"abc"` and `""`. -/
theorem buildQueryParams_spec_witness :
    buildQueryParams { nextPageToken := none, page := 1 } =
      [("max_page_size", "100"), ("order_by", "desc")]
    ∧ buildQueryParams { nextPageToken := some "abc", page := 2 } =
      [("max_page_size", "100"), ("order_by", "desc"), ("page_token", "abc")]
    ∧ (("max_page_size", "100") ∈ buildQueryParams { nextPageToken := some "", page := 3 }
        ∧ ("order_by", "desc") ∈ buildQueryParams { nextPageToken := some "", page := 3 }) :=
  ⟨buildQueryParams_spec.1 _ rfl,
   buildQueryParams_spec.2.1 _ "abc" rfl (by decide),
   buildQueryParams_spec.2.2 _⟩

/-- Claim C7: every failed fetch iteration — a `downloadPage` rejection,
including the rate-limit rejection a 429 response produces, or a page without
entries — leaves the Position untouched and pushes nothing to either queue,
so the retry reuses exactly the same cursor. -/
theorem failure_frame :
    (∀ (st : RunState) (e : DownloadError),
      (runIteration st (.error e)).position = st.position
      ∧ (runIteration st (.error e)).taskQueue = st.taskQueue
      ∧ (runIteration st (.error e)).logQueue = st.logQueue)
    ∧ (∀ (text : String) (parsed : Option JSVal),
      downloadPage (some { status := 429, textResult := some text }) parsed =
        .error .rateLimited)
    ∧ (∀ (st : RunState) (json : JSVal), truthy (getField json "entries") = false →
      (runIteration st (.ok json)).position = st.position
      ∧ (runIteration st (.ok json)).taskQueue = st.taskQueue
      ∧ (runIteration st (.ok json)).logQueue = st.logQueue) := by
  refine ⟨?_, ?_, ?_⟩
  · intro st e
    simp [runIteration, stepFailure]
  · intro text parsed
    rfl
  · intro st json h
    simp [runIteration, h, stepFailure]

/-- Witness for C7 at a concrete mid-run state, a 429 response, and a page
missing its entries field. -/
theorem failure_frame_witness :
    ((runIteration (initRunState { nextPageToken := some "abc", page := 7 })
        (.error .rateLimited)).position =
      (initRunState { nextPageToken := some "abc", page := 7 }).position)
    ∧ downloadPage (some { status := 429, textResult := some "sometext" }) none =
        .error .rateLimited
    ∧ (runIteration (initRunState { nextPageToken := some "abc", page := 7 })
        (.ok noEntriesPage)).position =
      (initRunState { nextPageToken := some "abc", page := 7 }).position :=
  ⟨(failure_frame.1 _ .rateLimited).1, failure_frame.2.1 "sometext" none,
   (failure_frame.2.2 _ noEntriesPage rfl).1⟩

/-- Claim C8 counterexample: a successful fetch of the FINAL page (one with
entries but no next token) exits the loop through its `break` BEFORE the
reset assignment: from a state with backoff 30, the iteration on such a page
marks the loop done and leaves the backoff at 30, not at
`STARTING_BACKOFF` (which is 5). -/
theorem backoff_final_page_no_reset :
    (runIteration
      { position := { nextPageToken := some "abc", page := 7 }, backoff := 30,
        taskQueue := [], logQueue := [], sleeps := [], done := false }
      (.ok emptyEntriesPage)).backoff = 30
    ∧ (runIteration
      { position := { nextPageToken := some "abc", page := 7 }, backoff := 30,
        taskQueue := [], logQueue := [], sleeps := [], done := false }
      (.ok emptyEntriesPage)).done = true
    ∧ STARTING_BACKOFF = 5 := ⟨rfl, rfl, rfl⟩

/-- Claim C8 as amended: the backoff starts at `STARTING_BACKOFF`; every
failed iteration sleeps the current backoff and then increments it by
`INCREMENT_BACKOFF`; every successful iteration WITH a (truthy) next page
token resets the backoff to `STARTING_BACKOFF`; every successful iteration
WITHOUT a next page token is the final page: the loop exits through its
`break` (done), after which the backoff is never consulted again. -/
theorem backoff_policy :
    (∀ start : Position, (initRunState start).backoff = STARTING_BACKOFF)
    ∧ (∀ (st : RunState) (e : DownloadError),
      (runIteration st (.error e)).sleeps = st.sleeps ++ [st.backoff]
      ∧ (runIteration st (.error e)).backoff = st.backoff + INCREMENT_BACKOFF)
    ∧ (∀ (st : RunState) (json : JSVal), truthy (getField json "entries") = true →
      truthy (getField json "nextPageToken") = true →
      (runIteration st (.ok json)).backoff = STARTING_BACKOFF)
    ∧ (∀ (st : RunState) (json : JSVal), truthy (getField json "entries") = true →
      truthy (getField json "nextPageToken") = false →
      (runIteration st (.ok json)).done = true) := by
  refine ⟨fun _ => rfl, ?_, ?_, ?_⟩
  · intro st e
    simp [runIteration, stepFailure]
  · intro st json h ht
    simp [runIteration, h, stepSuccess, ht]
  · intro st json h ht
    simp [runIteration, h, stepSuccess, ht]

/-- Witness for C8 at a fresh state: a network failure increments, the page
with next token `tok2` resets the backoff to `STARTING_BACKOFF`, and a final
page (entries but no next token) marks the loop done. -/
theorem backoff_policy_witness :
    (initRunState { nextPageToken := none, page := 1 }).backoff = STARTING_BACKOFF
    ∧ ((runIteration (initRunState { nextPageToken := none, page := 1 })
          (.error .fetchFailed)).sleeps =
        (initRunState { nextPageToken := none, page := 1 }).sleeps ++
          [(initRunState { nextPageToken := none, page := 1 }).backoff])
    ∧ (runIteration (initRunState { nextPageToken := none, page := 1 })
        (.ok pageWithNext)).backoff = STARTING_BACKOFF
    ∧ (runIteration (initRunState { nextPageToken := none, page := 1 })
        (.ok emptyEntriesPage)).done = true :=
  ⟨backoff_policy.1 _, (backoff_policy.2.1 _ .fetchFailed).1,
   backoff_policy.2.2.1 _ pageWithNext rfl rfl,
   backoff_policy.2.2.2 _ emptyEntriesPage rfl rfl⟩

/-- Claim C9 counterexample: recovering from a log whose only line has no
space yields the empty-string token (not `none`), but the request built from
that recovered Position is parameter-for-parameter identical to the first-page
request built from a fresh Position — `page_token` is silently dropped. -/
theorem malformed_line_first_page :
    (getLastPosition (some ["noseparator"])).nextPageToken = some ""
    ∧ buildQueryParams (getLastPosition (some ["noseparator"])) =
        buildQueryParams { nextPageToken := none, page := 1 } := ⟨by decide, by decide⟩

/-- Claim C9 as amended: a line with no separator parses to the empty-string
token rather than `none`; however the request built from an empty-string token
omits `page_token` (the truthiness test treats `""` like `null`), so the
recovered Position does behave as a first-page request. -/
theorem malformed_line_spec :
    (∀ line : String, jsIndexOf line ' ' = -1 → parseLineToken line = some "")
    ∧ (∀ page : Nat, buildQueryParams { nextPageToken := some "", page := page } =
        buildQueryParams { nextPageToken := none, page := page }) := by
  constructor
  · intro line h
    simp [parseLineToken, h, jsSubstring_zero_neg]
  · intro page
    rfl

/-- Witness for the amended C9 at the line `noseparator` and page `2`. -/
theorem malformed_line_spec_witness :
    parseLineToken "noseparator" = some ""
    ∧ buildQueryParams { nextPageToken := some "", page := 2 } =
        buildQueryParams { nextPageToken := none, page := 2 } :=
  ⟨malformed_line_spec.1 "noseparator" (by decide), malformed_line_spec.2 2⟩

/-- Claim C10: an entry whose id is present (truthy) but whose value is the
number `0` produces no Record Store row in the `download.ts` worker — `0` is
falsy, so the `id && value` guard drops it; evaluated on a concrete page with
the single entry `{id:"1", value:0}` the worker appends nothing. -/
theorem zero_value_entry_dropped :
    (∀ entry : JSVal, truthy (getField entry "id") = true →
      getField entry "value" = .vnum 0 → entryRow entry = none)
    ∧ taskWorkerRows zeroValuePage = [] := by
  constructor
  · intro entry _hid hv
    simp [entryRow, hv, truthy]
  · rfl

/-- Witness for C10 at the entry `{id:"1", value:0}`. -/
theorem zero_value_entry_dropped_witness :
    entryRow (.vobj [("id", .vstr "1"), ("value", .vnum 0)]) = none
    ∧ taskWorkerRows zeroValuePage = [] :=
  ⟨zero_value_entry_dropped.1 _ rfl rfl, zero_value_entry_dropped.2⟩

end OrderedBackup
